/-
  Verification of CampScouter (src/CampScouter.py) against its specification.

  Shallow embedding: the three HTTP wrapper functions and the Streamlit
  render pass are translated into pure Lean functions.  HTTP is modelled by
  passing the stubbed response (or, for the static-map endpoint, a function
  from request URL to response) as an explicit argument; the file system is
  an association list from file names to byte contents; JSON numeric fields
  (latitudes, longitudes) are modelled by `JNum := Int`, an opaque payload
  the program never computes with, only copies and formats into strings.
-/
import Mathlib

namespace CampScouter

/-- JSON numeric payload (latitude / longitude values).  The program never
performs arithmetic on these; they are copied and formatted into strings. -/
abbrev JNum := Int

/-- The `geometry.location` object of a geocoding / place-search result. -/
structure LatLng where
  lat : JNum
  lng : JNum
  deriving DecidableEq

/-- One element of the `results` array of the geocoding response; only
`geometry.location` is ever read by the program. -/
structure GeoResult where
  location : LatLng
  deriving DecidableEq

/-- Payload of `response.json()` for the geocoding endpoint: a `status`
string and a `results` array. -/
structure GeoResponse where
  status : String
  results : List GeoResult
  deriving DecidableEq

/-- One element of the `results` array of the place-search response: the fields
`name` and `geometry.location` read by `find_places`. -/
structure PlaceResult where
  name : String
  location : LatLng
  deriving DecidableEq

/-- Payload of `response.json()` for the place text-search endpoint.
`results` is `none` when the `"results"` key is absent from the JSON object
(`find_places` reads it with `.get("results", [])`). -/
structure PlacesResponse where
  results : Option (List PlaceResult)
  deriving DecidableEq

/-- An HTTP response for the static-map endpoint: status code and body. -/
structure HTTPResponse where
  status_code : Nat
  content : List UInt8
  deriving DecidableEq

/-- Python exceptions that the embedded code can raise. -/
inductive PyError where
  | indexError
  | valueError
  deriving DecidableEq

/-- The file system, as an association list from file names to contents;
a write prepends. -/
abbrev FileSystem := List (String × List UInt8)

/-- The static-map URL built by `download_satellite_image` (line 17): the
fixed endpoint followed by the interpolated center pair, zoom, the fixed
size 600x600 and map type satellite, and the key. -/
def download_satellite_image_url (api_key : String) (lat lon : JNum) (zoom : Nat) : String :=
  "https://maps.googleapis.com/maps/api/staticmap?center=" ++ toString lat ++ "," ++
    toString lon ++ "&zoom=" ++ toString zoom ++ "&size=600x600&maptype=satellite&key=" ++ api_key

/-- The static-map URL built by `download_image_as_bytes` (line 90), an
identical f-string to the one on line 17. -/
def download_image_as_bytes_url (api_key : String) (lat lon : JNum) (zoom : Nat) : String :=
  "https://maps.googleapis.com/maps/api/staticmap?center=" ++ toString lat ++ "," ++
    toString lon ++ "&zoom=" ++ toString zoom ++ "&size=600x600&maptype=satellite&key=" ++ api_key

/-- `download_satellite_image` (lines 6-26).  `http` maps a request URL to
the stubbed response; returns the updated file system and `true` when the
success message was printed, `false` for the failure message.  On a non-200
status nothing is written. -/
def download_satellite_image (http : String → HTTPResponse) (api_key : String)
    (lat lon : JNum) (zoom : Nat) (img_file_name : String) (fs : FileSystem) :
    FileSystem × Bool :=
  let response := http (download_satellite_image_url api_key lat lon zoom)
  if response.status_code = 200 then
    ((img_file_name, response.content) :: fs, true)
  else
    (fs, false)

/-- `download_image_as_bytes` (lines 88-95): returns the body bytes
(`BytesIO(response.content)`) on HTTP 200, else `None`. -/
def download_image_as_bytes (http : String → HTTPResponse) (api_key : String)
    (lat lon : JNum) (zoom : Nat) : Option (List UInt8) :=
  let response := http (download_image_as_bytes_url api_key lat lon zoom)
  if response.status_code = 200 then some response.content else none

/-- `get_lat_long` (lines 64-86) applied to the stubbed geocoding payload.
On status `"OK"` it reads `results[0]` (raising `IndexError` when the array
is empty); otherwise it prints an error and returns `(None, None)`,
modelled as `none`. -/
def get_lat_long (api_key address : String) (payload : GeoResponse) :
    Except PyError (Option (JNum × JNum)) :=
  if payload.status = "OK" then
    match payload.results with
    | [] => .error .indexError
    | r :: _ => .ok (some (r.location.lat, r.location.lng))
  else
    .ok none

/-- A place record built by `find_places` (lines 54-59). -/
structure Place where
  name : String
  latitude : JNum
  longitude : JNum
  zoom : Nat
  deriving DecidableEq

/-- `find_places` (lines 28-62) applied to the stubbed place-search
payload: `response.json().get("results", [])` mapped to place records,
each with the fixed zoom value 12. -/
def find_places (api_key query location : String) (radius : Nat)
    (payload : PlacesResponse) : List Place :=
  (payload.results.getD []).map fun result =>
    { name := result.name
      latitude := result.location.lat
      longitude := result.location.lng
      zoom := 12 }

/-- The display label built on line 115 by interpolating the place name,
latitude and longitude: name, space, latitude and longitude between
parentheses and separated by a comma. -/
def place_label (place : Place) : String :=
  place.name ++ " (" ++ toString place.latitude ++ ", " ++ toString place.longitude ++ ")"

/-- Python `list.index(x)` on a list of strings: the index of the first
element equal to `x`, or `none` for the `ValueError` raised when `x` is
absent (line 118). -/
def py_list_index (x : String) : List String → Option Nat
  | [] => none
  | y :: ys => if y = x then some 0 else (py_list_index x ys).map (· + 1)

/-- The comma-separated location string interpolated from latitude and
longitude, passed to `find_places` on line 113. -/
def geo_location_str (la lo : JNum) : String :=
  toString la ++ "," ++ toString lo

/-- The current values of the UI input widgets for one render pass:
API key and address text fields, zoom number input (0-21, default 12),
query text field (default "camp sites"), and the index of the option the
user picked in the place selectbox. -/
structure UIInput where
  api_key : String
  address : String
  zoom : Nat
  query : String
  selection : Nat

/-- The stubbed upstream world for one render pass: geocoding payload,
place-search payload, and the static-map endpoint as a function from
request URL to response. -/
structure Env where
  geo : GeoResponse
  places : PlacesResponse
  imagery : String → HTTPResponse

/-- One outbound HTTP request recorded during a render pass. -/
inductive ApiCall where
  | geocode (key address : String)
  | placeSearch (key query location : String) (radius : Nat)
  | staticMap (url : String)
  deriving DecidableEq

/-- One visible output produced during a render pass. -/
inductive RenderEvent where
  | title (s : String)
  | write (s : String)
  | selectbox (options : List String)
  | image (bytes : List UInt8)
  | errorMsg (s : String)
  deriving DecidableEq

/-- The module-level Streamlit script (lines 97-132) as one pure render
pass: given the current widget values and the stubbed upstream world it
returns the list of rendered outputs and the trace of HTTP requests made,
or the Python exception that escaped. -/
def run_app (inp : UIInput) (env : Env) :
    Except PyError (List RenderEvent × List ApiCall) :=
  let evs0 : List RenderEvent := [.title "CampRecon"]
  if inp.address ≠ "" ∧ inp.api_key ≠ "" then
    match get_lat_long inp.api_key inp.address env.geo with
    | .error e => .error e
    | .ok none =>
        .ok (evs0 ++ [.write "Location not found."],
             [.geocode inp.api_key inp.address])
    | .ok (some (la, lo)) =>
        let evs1 := evs0 ++
          [.write ("Latitude: " ++ toString la ++ ", Longitude: " ++ toString lo)]
        if inp.query ≠ "" then
          let loc := geo_location_str la lo
          let places := find_places inp.api_key inp.query loc 5000 env.places
          let calls := [.geocode inp.api_key inp.address,
                        .placeSearch inp.api_key inp.query loc 5000]
          if places = [] then
            .ok (evs1 ++ [.write "No places found."], calls)
          else
            let place_options := places.map place_label
            let selected_place := (place_options[inp.selection]?).getD ""
            let evs2 := evs1 ++ [.selectbox place_options]
            if selected_place ≠ "" then
              match py_list_index selected_place place_options with
              | none => .error .valueError
              | some selected_index =>
                match places[selected_index]? with
                | none => .error .indexError
                | some sp =>
                  let url := download_image_as_bytes_url inp.api_key
                    sp.latitude sp.longitude inp.zoom
                  let calls2 := calls ++ [.staticMap url]
                  match download_image_as_bytes env.imagery inp.api_key
                      sp.latitude sp.longitude inp.zoom with
                  | some bytes => .ok (evs2 ++ [.image bytes], calls2)
                  | none =>
                      .ok (evs2 ++
                        [.errorMsg "Failed to download the image. Check your API key and quota."],
                        calls2)
            else
              .ok (evs2, calls)
        else
          .ok (evs1, [.geocode inp.api_key inp.address])
  else
    .ok (evs0 ++ [.write "Please enter a valid API key and address."], [])

/-! ### Character-level facts about rendered numbers

The place label `name (lat, lon)` embeds the two coordinate strings
between fixed punctuation.  Decimal renderings of numbers contain no
space, comma or parenthesis, so the label determines the two coordinate
strings uniquely; these lemmas establish that. -/

/-- A character that can occur in a rendered number: not a space, comma or
parenthesis. -/
def plainChar (c : Char) : Prop :=
  c ≠ ' ' ∧ c ≠ ',' ∧ c ≠ '(' ∧ c ≠ ')'

instance (c : Char) : Decidable (plainChar c) := by
  unfold plainChar; infer_instance

theorem digitChar_plain (m : Nat) : plainChar (Nat.digitChar m) := by
  match m with
  | 0 | 1 | 2 | 3 | 4 | 5 | 6 | 7 | 8 | 9 | 10 | 11 | 12 | 13 | 14 | 15 => decide
  | n + 16 =>
    have hne : ∀ k : Nat, k < 16 → n + 16 ≠ k := by intro k hk; omega
    unfold Nat.digitChar
    rw [if_neg (hne 0 (by norm_num)), if_neg (hne 1 (by norm_num)),
      if_neg (hne 2 (by norm_num)), if_neg (hne 3 (by norm_num)),
      if_neg (hne 4 (by norm_num)), if_neg (hne 5 (by norm_num)),
      if_neg (hne 6 (by norm_num)), if_neg (hne 7 (by norm_num)),
      if_neg (hne 8 (by norm_num)), if_neg (hne 9 (by norm_num)),
      if_neg (hne 10 (by norm_num)), if_neg (hne 11 (by norm_num)),
      if_neg (hne 12 (by norm_num)), if_neg (hne 13 (by norm_num)),
      if_neg (hne 14 (by norm_num)), if_neg (hne 15 (by norm_num))]
    decide

theorem toDigitsCore_plain (b fuel : Nat) :
    ∀ (n : Nat) (ds : List Char), (∀ c ∈ ds, plainChar c) →
      ∀ c ∈ Nat.toDigitsCore b fuel n ds, plainChar c := by
  induction fuel with
  | zero => intro n ds hds c hc; exact hds c hc
  | succ fuel ih =>
      intro n ds hds c hc
      unfold Nat.toDigitsCore at hc
      by_cases h : n / b = 0
      · simp only [h, if_pos] at hc
        rcases List.mem_cons.mp hc with h' | h'
        · exact h' ▸ digitChar_plain _
        · exact hds c h'
      · simp only [h, if_neg, if_false] at hc
        refine ih _ _ ?_ c hc
        intro c' hc'
        rcases List.mem_cons.mp hc' with h' | h'
        · exact h' ▸ digitChar_plain _
        · exact hds c' h'

theorem nat_repr_plain (n : Nat) : ∀ c ∈ (Nat.repr n).data, plainChar c := by
  intro c hc
  have : (Nat.repr n).data = Nat.toDigitsCore 10 (n + 1) n [] := rfl
  rw [this] at hc
  exact toDigitsCore_plain 10 (n + 1) n [] (by intro c h; cases h) c hc

theorem int_toString_plain (i : Int) : ∀ c ∈ (toString i).data, plainChar c := by
  intro c hc
  cases i with
  | ofNat m => exact nat_repr_plain m c hc
  | negSucc m =>
      have : (toString (Int.negSucc m)).data = '-' :: (Nat.repr (m + 1)).data := by
        show (("-" ++ Nat.repr (m + 1) : String)).data = _
        rw [String.data_append]
        rfl
      rw [this] at hc
      rcases List.mem_cons.mp hc with h' | h'
      · exact h' ▸ (by decide)
      · exact nat_repr_plain (m + 1) c h'

/-- Splitting at the first occurrence of a marker element is unique. -/
theorem append_cons_inj {α : Type} {d : α} :
    ∀ {xs ys us vs : List α}, d ∉ xs → d ∉ ys →
      xs ++ d :: us = ys ++ d :: vs → xs = ys ∧ us = vs := by
  intro xs
  induction xs with
  | nil =>
      intro ys us vs _ hy h
      cases ys with
      | nil => simpa using h
      | cons y ys' =>
          simp only [List.nil_append, List.cons_append, List.cons.injEq] at h
          exact absurd (h.1 ▸ List.mem_cons_self y ys') hy
  | cons x xs' ih =>
      intro ys us vs hx hy h
      cases ys with
      | nil =>
          simp only [List.cons_append, List.nil_append, List.cons.injEq] at h
          exact absurd (h.1 ▸ List.mem_cons_self x xs') hx
      | cons y ys' =>
          simp only [List.cons_append, List.cons.injEq] at h
          have := ih (fun hm => hx (List.mem_cons_of_mem x hm))
            (fun hm => hy (List.mem_cons_of_mem y hm)) h.2
          exact ⟨by rw [h.1, this.1], this.2⟩

theorem place_label_data (p : Place) :
    (place_label p).data =
      p.name.data ++ (' ' :: '(' :: ((toString p.latitude).data ++
        (',' :: ' ' :: ((toString p.longitude).data ++ [')'])))) := by
  unfold place_label
  have h1 : (" (" : String).data = [' ', '('] := rfl
  have h2 : ((", ") : String).data = [',', ' '] := rfl
  have h3 : ((")") : String).data = [')'] := rfl
  simp [String.data_append, h1, h2, h3]

/-- The display label determines the rendered coordinate strings: the two
numbers sit between fixed punctuation and contain none of it themselves. -/
theorem place_label_coords {p q : Place} (h : place_label p = place_label q) :
    toString p.latitude = toString q.latitude ∧
      toString p.longitude = toString q.longitude := by
  have hd := congrArg String.data h
  rw [place_label_data, place_label_data] at hd
  have hrev := congrArg List.reverse hd
  simp only [List.reverse_append, List.reverse_cons, List.reverse_singleton,
    List.append_assoc, List.singleton_append, List.nil_append, List.cons_append] at hrev
  injection hrev with h1 hrest
  have hsplit : ∀ (l r : List Char), l ++ ' ' :: ',' :: r = (l ++ [' ']) ++ ',' :: r := by
    intro l r; simp
  rw [hsplit, hsplit] at hrest
  have hnc : ∀ (i : JNum), ',' ∉ (toString i).data.reverse ++ [' '] := by
    intro i hm
    rcases List.mem_append.mp hm with hm | hm
    · exact (int_toString_plain i ',' (List.mem_reverse.mp hm)).2.1 rfl
    · simp at hm
  obtain ⟨hBeq, hrest2⟩ := append_cons_inj (hnc p.longitude) (hnc q.longitude) hrest
  have hlon : toString p.longitude = toString q.longitude :=
    String.ext (List.reverse_inj.mp (List.append_cancel_right hBeq))
  have hnp : ∀ (i : JNum), '(' ∉ (toString i).data.reverse := by
    intro i hm
    exact (int_toString_plain i '(' (List.mem_reverse.mp hm)).2.2.1 rfl
  obtain ⟨hAeq, _⟩ := append_cons_inj (hnp p.latitude) (hnp q.latitude) hrest2
  have hlat : toString p.latitude = toString q.latitude :=
    String.ext (List.reverse_inj.mp hAeq)
  exact ⟨hlat, hlon⟩

theorem place_label_ne_empty (p : Place) : place_label p ≠ "" := by
  intro h
  have hd := congrArg String.data h
  rw [place_label_data] at hd
  simp at hd

/-! ### Facts about `py_list_index` (Python `list.index`) -/

theorem py_list_index_spec (x : String) :
    ∀ (l : List String) (j : Nat), py_list_index x l = some j →
      j < l.length ∧ l[j]? = some x ∧ ∀ i, i < j → l[i]? ≠ some x := by
  intro l
  induction l with
  | nil => intro j h; simp [py_list_index] at h
  | cons y ys ih =>
      intro j h
      unfold py_list_index at h
      by_cases hy : y = x
      · rw [if_pos hy] at h
        cases h
        refine ⟨by simp, by simp [hy], ?_⟩
        intro i hi
        exact absurd hi (Nat.not_lt_zero i)
      · rw [if_neg hy] at h
        rcases Option.map_eq_some'.mp h with ⟨j', hj', rfl⟩
        obtain ⟨hlen, hget, hmin⟩ := ih j' hj'
        refine ⟨by simpa using hlen, by simpa using hget, ?_⟩
        intro i hi
        cases i with
        | zero =>
            simp only [List.getElem?_cons_zero]
            intro hc
            exact hy (Option.some.injEq .. ▸ hc)
        | succ i' =>
            simp only [List.getElem?_cons_succ]
            exact hmin i' (by omega)

theorem py_list_index_le (x : String) :
    ∀ (l : List String) (k : Nat), l[k]? = some x →
      ∃ j, py_list_index x l = some j ∧ j ≤ k := by
  intro l
  induction l with
  | nil => intro k h; simp at h
  | cons y ys ih =>
      intro k h
      unfold py_list_index
      by_cases hy : y = x
      · exact ⟨0, by rw [if_pos hy], Nat.zero_le k⟩
      · rw [if_neg hy]
        cases k with
        | zero =>
            simp only [List.getElem?_cons_zero, Option.some.injEq] at h
            exact absurd h hy
        | succ k' =>
            simp only [List.getElem?_cons_succ] at h
            obtain ⟨j', hj', hle⟩ := ih k' h
            exact ⟨j' + 1, by rw [hj']; rfl, by omega⟩

/-! ### The claims -/

/-- Claim C1: for every geocoding payload with status `"OK"` (and hence a
first result, which status `"OK"` presupposes), `get_lat_long` returns
exactly the pair `(results[0].geometry.location.lat,
results[0].geometry.location.lng)` from that payload. -/
theorem get_lat_long_ok (api_key address : String) (payload : GeoResponse)
    (hst : payload.status = "OK") (r : GeoResult) (rs : List GeoResult)
    (hres : payload.results = r :: rs) :
    get_lat_long api_key address payload = .ok (some (r.location.lat, r.location.lng)) := by
  unfold get_lat_long
  rw [if_pos hst, hres]

theorem get_lat_long_ok_witness :
    (GeoResponse.mk "OK" [⟨⟨45, -71⟩⟩]).status = "OK" ∧
      get_lat_long "key" "1 Camp Rd" (GeoResponse.mk "OK" [⟨⟨45, -71⟩⟩]) =
        .ok (some (45, -71)) :=
  ⟨rfl, get_lat_long_ok "key" "1 Camp Rd" (GeoResponse.mk "OK" [⟨⟨45, -71⟩⟩]) rfl
    ⟨⟨45, -71⟩⟩ [] rfl⟩

/-- Claim C2: for every simulated HTTP status, `download_satellite_image`
writes bytes to the given path and `download_image_as_bytes` returns bytes
if and only if that status is 200; on any non-200 status both report
failure, the file system is unchanged, and the in-memory variant returns
`none`. -/
theorem imagery_success_iff_200 (http : String → HTTPResponse) (api_key : String)
    (lat lon : JNum) (zoom : Nat) (img_file_name : String) (fs : FileSystem) :
    ((download_satellite_image http api_key lat lon zoom img_file_name fs).2 = true ↔
        (http (download_satellite_image_url api_key lat lon zoom)).status_code = 200) ∧
      ((download_image_as_bytes http api_key lat lon zoom).isSome ↔
        (http (download_image_as_bytes_url api_key lat lon zoom)).status_code = 200) ∧
      ((http (download_satellite_image_url api_key lat lon zoom)).status_code = 200 →
        (download_satellite_image http api_key lat lon zoom img_file_name fs).1 =
            (img_file_name, (http (download_satellite_image_url api_key lat lon zoom)).content) :: fs ∧
          download_image_as_bytes http api_key lat lon zoom =
            some ((http (download_image_as_bytes_url api_key lat lon zoom)).content)) ∧
      ((http (download_satellite_image_url api_key lat lon zoom)).status_code ≠ 200 →
        (download_satellite_image http api_key lat lon zoom img_file_name fs).1 = fs ∧
          download_image_as_bytes http api_key lat lon zoom = none) := by
  have hurl : download_image_as_bytes_url api_key lat lon zoom =
      download_satellite_image_url api_key lat lon zoom := rfl
  by_cases h : (http (download_satellite_image_url api_key lat lon zoom)).status_code = 200 <;>
    simp [download_satellite_image, download_image_as_bytes, hurl, h]

/-- A stubbed static-map endpoint answering 404 to every request. -/
def http404 : String → HTTPResponse := fun _ => ⟨404, []⟩

theorem imagery_success_iff_200_witness :
    ((download_satellite_image http404 "key" 45 (-71) 14 "img.png" []).2 = true ↔
        (http404 (download_satellite_image_url "key" 45 (-71) 14)).status_code = 200) ∧
      ((download_image_as_bytes http404 "key" 45 (-71) 14).isSome ↔
        (http404 (download_image_as_bytes_url "key" 45 (-71) 14)).status_code = 200) ∧
      ((http404 (download_satellite_image_url "key" 45 (-71) 14)).status_code = 200 →
        (download_satellite_image http404 "key" 45 (-71) 14 "img.png" []).1 =
            [("img.png", (http404 (download_satellite_image_url "key" 45 (-71) 14)).content)] ∧
          download_image_as_bytes http404 "key" 45 (-71) 14 =
            some ((http404 (download_image_as_bytes_url "key" 45 (-71) 14)).content)) ∧
      ((http404 (download_satellite_image_url "key" 45 (-71) 14)).status_code ≠ 200 →
        (download_satellite_image http404 "key" 45 (-71) 14 "img.png" []).1 = [] ∧
          download_image_as_bytes http404 "key" 45 (-71) 14 = none) :=
  imagery_success_iff_200 http404 "key" 45 (-71) 14 "img.png" []

/-- Claim C3: for every geocoding payload whose status is not `"OK"`,
`get_lat_long` returns the not-found outcome `(None, None)` (here `.ok
none`: no exception escapes), identically for every non-`"OK"` status
value. -/
theorem get_lat_long_not_ok (api_key address : String) (payload : GeoResponse)
    (hst : payload.status ≠ "OK") :
    get_lat_long api_key address payload = .ok none := by
  unfold get_lat_long
  rw [if_neg hst]

theorem get_lat_long_not_ok_witness :
    (GeoResponse.mk "ZERO_RESULTS" []).status ≠ "OK" ∧
      get_lat_long "key" "nowhere" (GeoResponse.mk "ZERO_RESULTS" []) = .ok none ∧
      get_lat_long "key" "nowhere" (GeoResponse.mk "REQUEST_DENIED" [⟨⟨1, 2⟩⟩]) = .ok none :=
  ⟨by decide,
    get_lat_long_not_ok "key" "nowhere" (GeoResponse.mk "ZERO_RESULTS" []) (by decide),
    get_lat_long_not_ok "key" "nowhere" (GeoResponse.mk "REQUEST_DENIED" [⟨⟨1, 2⟩⟩]) (by decide)⟩

/-- Claim C4: every place record produced by `find_places` has `zoom = 12`,
for every input key, query, location, radius and response result list
(`find_places` takes no zoom input at all, so the field is independent of
any caller-specified zoom level). -/
theorem find_places_zoom_12 (api_key query location : String) (radius : Nat)
    (payload : PlacesResponse) :
    ∀ p ∈ find_places api_key query location radius payload, p.zoom = 12 := by
  intro p hp
  unfold find_places at hp
  rcases List.mem_map.mp hp with ⟨r, _, rfl⟩
  rfl

theorem find_places_zoom_12_witness :
    (⟨"Pine Camp", 4501, -7101, 12⟩ : Place) ∈
        find_places "key" "camp sites" "45,-71" 5000
          ⟨some [⟨"Pine Camp", ⟨4501, -7101⟩⟩]⟩ ∧
      (⟨"Pine Camp", 4501, -7101, 12⟩ : Place).zoom = 12 :=
  ⟨by decide,
    find_places_zoom_12 "key" "camp sites" "45,-71" 5000
      ⟨some [⟨"Pine Camp", ⟨4501, -7101⟩⟩]⟩
      ⟨"Pine Camp", 4501, -7101, 12⟩ (by decide)⟩

/-- Claim C8: for every API key, coordinate and zoom,
`download_satellite_image` (line 17) and `download_image_as_bytes`
(line 90) build the identical static-map request URL: fixed
`size=600x600`, `maptype=satellite`, the given center, zoom and key. -/
theorem imagery_urls_eq (api_key : String) (lat lon : JNum) (zoom : Nat) :
    download_satellite_image_url api_key lat lon zoom =
      download_image_as_bytes_url api_key lat lon zoom := rfl

/-- Claim C9: when the place-search payload lacks the `"results"` key
entirely, `find_places` does not raise: it returns the empty list, the
same value as for a genuine zero-result response. -/
theorem find_places_missing_results (api_key query location : String) (radius : Nat)
    (payload : PlacesResponse) (h : payload.results = none) :
    find_places api_key query location radius payload = [] ∧
      find_places api_key query location radius payload =
        find_places api_key query location radius ⟨some []⟩ := by
  unfold find_places
  rw [h]
  exact ⟨rfl, rfl⟩

theorem find_places_missing_results_witness :
    (PlacesResponse.mk none).results = none ∧
      find_places "key" "camp sites" "45,-71" 5000 ⟨none⟩ = [] ∧
      find_places "key" "camp sites" "45,-71" 5000 ⟨none⟩ =
        find_places "key" "camp sites" "45,-71" 5000 ⟨some []⟩ :=
  ⟨rfl,
    (find_places_missing_results "key" "camp sites" "45,-71" 5000 ⟨none⟩ rfl).1,
    (find_places_missing_results "key" "camp sites" "45,-71" 5000 ⟨none⟩ rfl).2⟩

/-- Claim C7: if the API key field or the address field is empty, the
render pass displays the prompt and stops: its HTTP trace is empty, so no
geocoding, place-search or imagery request is made. -/
theorem missing_input_gates (inp : UIInput) (env : Env)
    (h : inp.address = "" ∨ inp.api_key = "") :
    run_app inp env =
      .ok ([.title "CampRecon", .write "Please enter a valid API key and address."], []) := by
  rcases h with h | h <;> simp [run_app, h]

theorem missing_input_gates_witness :
    ((UIInput.mk "" "1 Camp Rd" 12 "camp sites" 0).address = "" ∨
        (UIInput.mk "" "1 Camp Rd" 12 "camp sites" 0).api_key = "") ∧
      run_app (UIInput.mk "" "1 Camp Rd" 12 "camp sites" 0)
          (Env.mk ⟨"OK", [⟨⟨45, -71⟩⟩]⟩ ⟨some []⟩ (fun _ => ⟨200, [80]⟩)) =
        .ok ([.title "CampRecon", .write "Please enter a valid API key and address."], []) :=
  ⟨Or.inr rfl,
    missing_input_gates (UIInput.mk "" "1 Camp Rd" 12 "camp sites" 0)
      (Env.mk ⟨"OK", [⟨⟨45, -71⟩⟩]⟩ ⟨some []⟩ (fun _ => ⟨200, [80]⟩)) (Or.inr rfl)⟩

/-- Claim C5: when the place-search payload has an empty `results` array,
`find_places` returns the empty list (a value, not an error), and the
render pass then shows "No places found." and stops: its HTTP trace
contains the geocoding and place-search requests only, no imagery
request. -/
theorem no_places_found (inp : UIInput) (env : Env) (la lo : JNum)
    (ha : inp.address ≠ "") (hk : inp.api_key ≠ "")
    (hg : get_lat_long inp.api_key inp.address env.geo = .ok (some (la, lo)))
    (hq : inp.query ≠ "")
    (hres : env.places.results = some []) :
    find_places inp.api_key inp.query (geo_location_str la lo) 5000 env.places = [] ∧
      run_app inp env =
        .ok ([.title "CampRecon",
              .write ("Latitude: " ++ toString la ++ ", Longitude: " ++ toString lo),
              .write "No places found."],
             [.geocode inp.api_key inp.address,
              .placeSearch inp.api_key inp.query (geo_location_str la lo) 5000]) := by
  have hfp : find_places inp.api_key inp.query (geo_location_str la lo) 5000 env.places = [] := by
    unfold find_places
    rw [hres]
    rfl
  refine ⟨hfp, ?_⟩
  simp [run_app, hg, ha, hk, hq, hfp]

theorem no_places_found_witness :
    ((UIInput.mk "key" "1 Camp Rd" 12 "camp sites" 0).address ≠ "" ∧
        (UIInput.mk "key" "1 Camp Rd" 12 "camp sites" 0).api_key ≠ "" ∧
        (UIInput.mk "key" "1 Camp Rd" 12 "camp sites" 0).query ≠ "") ∧
      run_app (UIInput.mk "key" "1 Camp Rd" 12 "camp sites" 0)
          (Env.mk ⟨"OK", [⟨⟨45, -71⟩⟩]⟩ ⟨some []⟩ http404) =
        .ok ([.title "CampRecon",
              .write ("Latitude: " ++ toString (45 : JNum) ++ ", Longitude: " ++
                toString (-71 : JNum)),
              .write "No places found."],
             [.geocode "key" "1 Camp Rd",
              .placeSearch "key" "camp sites" (geo_location_str 45 (-71)) 5000]) :=
  ⟨⟨by decide, by decide, by decide⟩,
    (no_places_found (UIInput.mk "key" "1 Camp Rd" 12 "camp sites" 0)
      (Env.mk ⟨"OK", [⟨⟨45, -71⟩⟩]⟩ ⟨some []⟩ http404) 45 (-71)
      (by decide) (by decide) rfl (by decide) rfl).2⟩

/-- A place record with empty fields, used as the (never reached) default
of total list lookups in theorem statements. -/
def noPlace : Place := ⟨"", 0, 0, 0⟩

/-- The place list built by the render pass on line 113 after the address
geocoded to `(la, lo)`. -/
def found_places (inp : UIInput) (env : Env) (la lo : JNum) : List Place :=
  find_places inp.api_key inp.query (geo_location_str la lo) 5000 env.places

/-- Shared computation lemma: in the selection branch, the render pass
renders the selectbox and then fetches imagery for the place at the index
returned by `py_list_index` on the selected label. -/
theorem run_app_selected (inp : UIInput) (env : Env) (la lo : JNum)
    (ha : inp.address ≠ "") (hk : inp.api_key ≠ "")
    (hg : get_lat_long inp.api_key inp.address env.geo = .ok (some (la, lo)))
    (hq : inp.query ≠ "")
    (hne : found_places inp env la lo ≠ [])
    (hlbl : ((found_places inp env la lo).map place_label)[inp.selection]?.getD "" ≠ "")
    (j : Nat) (sp : Place)
    (hpli : py_list_index (((found_places inp env la lo).map place_label)[inp.selection]?.getD "")
      ((found_places inp env la lo).map place_label) = some j)
    (hgj : (found_places inp env la lo)[j]? = some sp) :
    run_app inp env = .ok
      ([.title "CampRecon",
        .write ("Latitude: " ++ toString la ++ ", Longitude: " ++ toString lo),
        .selectbox ((found_places inp env la lo).map place_label)] ++
          (match download_image_as_bytes env.imagery inp.api_key
              sp.latitude sp.longitude inp.zoom with
           | some bytes => [.image bytes]
           | none => [.errorMsg "Failed to download the image. Check your API key and quota."]),
       [.geocode inp.api_key inp.address,
        .placeSearch inp.api_key inp.query (geo_location_str la lo) 5000,
        .staticMap (download_image_as_bytes_url inp.api_key sp.latitude sp.longitude inp.zoom)]) := by
  unfold found_places at hne hlbl hpli hgj
  simp only [List.getElem?_map] at hlbl hpli
  cases hdl : download_image_as_bytes env.imagery inp.api_key sp.latitude sp.longitude inp.zoom with
  | none => simp [run_app, found_places, hg, ha, hk, hq, hne, hlbl, hpli, hgj, hdl]
  | some bytes => simp [run_app, found_places, hg, ha, hk, hq, hne, hlbl, hpli, hgj, hdl]

/-- The place record at the index the user picked in the selectbox. -/
def selected_rec (inp : UIInput) (env : Env) (la lo : JNum) : Place :=
  (found_places inp env la lo).getD inp.selection noPlace

/-- The static-map request URL for the coordinates of the selected place at the
zoom level currently in the UI number input. -/
def selected_map_url (inp : UIInput) (env : Env) (la lo : JNum) : String :=
  download_image_as_bytes_url inp.api_key (selected_rec inp env la lo).latitude
    (selected_rec inp env la lo).longitude inp.zoom

/-- Shared resolution lemma: the label of the selected entry is looked up
with `py_list_index`, which lands on the first index carrying that label,
at or before the selected index. -/
theorem selection_resolution (inp : UIInput) (env : Env) (la lo : JNum)
    (hsel : inp.selection < (found_places inp env la lo).length) :
    ∃ j sp,
      ((found_places inp env la lo).map place_label)[inp.selection]?.getD "" =
        place_label (selected_rec inp env la lo) ∧
      py_list_index (((found_places inp env la lo).map place_label)[inp.selection]?.getD "")
        ((found_places inp env la lo).map place_label) = some j ∧
      (found_places inp env la lo)[j]? = some sp ∧
      j ≤ inp.selection ∧
      place_label sp = place_label (selected_rec inp env la lo) ∧
      ∀ i, i < j → ((found_places inp env la lo).map place_label)[i]? ≠
        some (place_label (selected_rec inp env la lo)) := by
  have hmapopt : ((found_places inp env la lo).map place_label)[inp.selection]? =
      some (place_label (selected_rec inp env la lo)) := by
    rw [List.getElem?_map, List.getElem?_eq_getElem hsel]
    simp [selected_rec, List.getD_eq_getElem?_getD, List.getElem?_eq_getElem hsel]
  have hx : ((found_places inp env la lo).map place_label)[inp.selection]?.getD "" =
      place_label (selected_rec inp env la lo) := by rw [hmapopt]; rfl
  obtain ⟨j, hpli, hjle⟩ :=
    py_list_index_le (place_label (selected_rec inp env la lo))
      ((found_places inp env la lo).map place_label) inp.selection hmapopt
  obtain ⟨hjlt, hjget, hjmin⟩ :=
    py_list_index_spec (place_label (selected_rec inp env la lo))
      ((found_places inp env la lo).map place_label) j hpli
  rw [List.getElem?_map] at hjget
  obtain ⟨sp, hsp, hlab⟩ := Option.map_eq_some'.mp hjget
  exact ⟨j, sp, hx, by rw [hx]; exact hpli, hsp, hjle, hlab, hjmin⟩

/-- Claim C6: on selection of a place, the render pass fetches imagery
in-memory at the URL built from the latitude/longitude of the selected
place and the zoom in the UI number input (not the `zoom` field of the record,
which `selected_map_url` never reads), and on HTTP 200 it renders the
returned bytes in the image region. -/
theorem selection_fetch_ui_zoom (inp : UIInput) (env : Env) (la lo : JNum)
    (ha : inp.address ≠ "") (hk : inp.api_key ≠ "")
    (hg : get_lat_long inp.api_key inp.address env.geo = .ok (some (la, lo)))
    (hq : inp.query ≠ "")
    (hsel : inp.selection < (found_places inp env la lo).length)
    (h200 : (env.imagery (selected_map_url inp env la lo)).status_code = 200) :
    run_app inp env = .ok
      ([.title "CampRecon",
        .write ("Latitude: " ++ toString la ++ ", Longitude: " ++ toString lo),
        .selectbox ((found_places inp env la lo).map place_label),
        .image ((env.imagery (selected_map_url inp env la lo)).content)],
       [.geocode inp.api_key inp.address,
        .placeSearch inp.api_key inp.query (geo_location_str la lo) 5000,
        .staticMap (selected_map_url inp env la lo)]) := by
  obtain ⟨j, sp, hx, hpli, hsp, hjle, hlab, hmin⟩ := selection_resolution inp env la lo hsel
  have hne : found_places inp env la lo ≠ [] := by
    intro h0; rw [h0] at hsel; simp at hsel
  have hlblne : ((found_places inp env la lo).map place_label)[inp.selection]?.getD "" ≠ "" := by
    rw [hx]; exact place_label_ne_empty _
  have hrun := run_app_selected inp env la lo ha hk hg hq hne hlblne j sp hpli hsp
  obtain ⟨hc1, hc2⟩ := place_label_coords hlab
  have hurl : download_image_as_bytes_url inp.api_key sp.latitude sp.longitude inp.zoom =
      selected_map_url inp env la lo := by
    unfold selected_map_url download_image_as_bytes_url
    rw [hc1, hc2]
  have hbytes : download_image_as_bytes env.imagery inp.api_key sp.latitude
      sp.longitude inp.zoom = some ((env.imagery (selected_map_url inp env la lo)).content) := by
    simp only [download_image_as_bytes, hurl]
    rw [if_pos h200]
  rw [hrun, hbytes, hurl]
  simp

/-- Claim C10: the selectbox value is only a label, and the render pass
maps it back to a place by `list.index`, the first index carrying that
label; so whichever duplicate entry the user selected, the imagery request
uses the coordinates of the first place with that label (its index `j` is
at or before the selected index, no earlier index carries the label, and
the static-map URL is built from the place at `j`). -/
theorem duplicate_label_first_index (inp : UIInput) (env : Env) (la lo : JNum)
    (ha : inp.address ≠ "") (hk : inp.api_key ≠ "")
    (hg : get_lat_long inp.api_key inp.address env.geo = .ok (some (la, lo)))
    (hq : inp.query ≠ "")
    (hsel : inp.selection < (found_places inp env la lo).length) :
    ∃ j, j ≤ inp.selection ∧
      ((found_places inp env la lo).map place_label)[j]? =
        some (place_label (selected_rec inp env la lo)) ∧
      (∀ i, i < j → ((found_places inp env la lo).map place_label)[i]? ≠
        some (place_label (selected_rec inp env la lo))) ∧
      ∃ evs, run_app inp env = .ok (evs,
        [.geocode inp.api_key inp.address,
         .placeSearch inp.api_key inp.query (geo_location_str la lo) 5000,
         .staticMap (download_image_as_bytes_url inp.api_key
           ((found_places inp env la lo).getD j noPlace).latitude
           ((found_places inp env la lo).getD j noPlace).longitude inp.zoom)]) := by
  obtain ⟨j, sp, hx, hpli, hsp, hjle, hlab, hmin⟩ := selection_resolution inp env la lo hsel
  have hne : found_places inp env la lo ≠ [] := by
    intro h0; rw [h0] at hsel; simp at hsel
  have hlblne : ((found_places inp env la lo).map place_label)[inp.selection]?.getD "" ≠ "" := by
    rw [hx]; exact place_label_ne_empty _
  have hrun := run_app_selected inp env la lo ha hk hg hq hne hlblne j sp hpli hsp
  have hjget : ((found_places inp env la lo).map place_label)[j]? =
      some (place_label (selected_rec inp env la lo)) := by
    rw [List.getElem?_map, hsp]
    simp [hlab]
  have hspD : (found_places inp env la lo).getD j noPlace = sp := by
    rw [List.getD_eq_getElem?_getD, hsp]
    rfl
  refine ⟨j, hjle, hjget, hmin, ?_⟩
  rw [hspD]
  exact ⟨_, hrun⟩

/-- Concrete render-pass input: zoom 14, first option selected. -/
def wInp6 : UIInput := ⟨"key", "1 Camp Rd", 14, "camp sites", 0⟩

/-- Concrete stubbed world: geocode resolves, one place found, imagery
endpoint answers 200 with the bytes `PNG`. -/
def wEnv6 : Env :=
  ⟨⟨"OK", [⟨⟨45, -71⟩⟩]⟩, ⟨some [⟨"Pine Camp", ⟨45, -71⟩⟩]⟩, fun _ => ⟨200, [80, 78, 71]⟩⟩

theorem selection_fetch_ui_zoom_witness :
    run_app wInp6 wEnv6 = .ok
      ([.title "CampRecon",
        .write ("Latitude: " ++ toString (45 : JNum) ++ ", Longitude: " ++ toString (-71 : JNum)),
        .selectbox ((found_places wInp6 wEnv6 45 (-71)).map place_label),
        .image ((wEnv6.imagery (selected_map_url wInp6 wEnv6 45 (-71))).content)],
       [.geocode wInp6.api_key wInp6.address,
        .placeSearch wInp6.api_key wInp6.query (geo_location_str 45 (-71)) 5000,
        .staticMap (selected_map_url wInp6 wEnv6 45 (-71))]) :=
  selection_fetch_ui_zoom wInp6 wEnv6 45 (-71) (by decide) (by decide) rfl (by decide)
    (by decide) rfl

/-- Concrete render-pass input for the duplicate scenario: the user picked
the second of two identically labelled entries. -/
def wInp10 : UIInput := ⟨"key", "1 Camp Rd", 14, "camp sites", 1⟩

/-- Concrete stubbed world with two identical place results. -/
def wEnv10 : Env :=
  ⟨⟨"OK", [⟨⟨45, -71⟩⟩]⟩,
    ⟨some [⟨"Pine Camp", ⟨45, -71⟩⟩, ⟨"Pine Camp", ⟨45, -71⟩⟩]⟩,
    fun _ => ⟨200, [80, 78, 71]⟩⟩

theorem duplicate_label_first_index_witness :
    ∃ j, j ≤ wInp10.selection ∧
      ((found_places wInp10 wEnv10 45 (-71)).map place_label)[j]? =
        some (place_label (selected_rec wInp10 wEnv10 45 (-71))) ∧
      (∀ i, i < j → ((found_places wInp10 wEnv10 45 (-71)).map place_label)[i]? ≠
        some (place_label (selected_rec wInp10 wEnv10 45 (-71)))) ∧
      ∃ evs, run_app wInp10 wEnv10 = .ok (evs,
        [.geocode wInp10.api_key wInp10.address,
         .placeSearch wInp10.api_key wInp10.query (geo_location_str 45 (-71)) 5000,
         .staticMap (download_image_as_bytes_url wInp10.api_key
           ((found_places wInp10 wEnv10 45 (-71)).getD j noPlace).latitude
           ((found_places wInp10 wEnv10 45 (-71)).getD j noPlace).longitude wInp10.zoom)]) :=
  duplicate_label_first_index wInp10 wEnv10 45 (-71) (by decide) (by decide) rfl (by decide)
    (by decide)

end CampScouter
